import Mathlib

/-!
# Verification of the user-management backend

Shallow embedding of the `users` data model, the two profile endpoints
(`PATCH /profile/me`, `POST /profile/upgrade`) and the idempotent schema
migration, translated from:

* `app/models/user_model.py`
* `app/schemas/user_schemas.py`
* `app/routers/profile_routes.py`
* `alembic/versions/9a61ec22c854_add_professional_status_fields.py`

Modelling conventions: UUIDs are `Nat`; wall-clock timestamps are `Nat`
passed explicitly to each operation (`datetime.now(timezone.utc)` at the
call site, `func.now()` at commit time); JSON scalar values are a small
inductive `JsonVal`; a request body is an association list from keys to
`Option JsonVal`, where `none` is JSON `null`.
-/

namespace UserMgmt

/-- JSON values as they appear in request/response bodies. A JSON object is
abstracted to its string-keyed entries with stringified values; no code path
in scope inspects the inside of an object. -/
inductive JsonVal where
  | str (s : String)
  | num (n : Int)
  | bool (b : Bool)
  | obj (kvs : List (String × String))
deriving DecidableEq, Repr

/-- A raw JSON request body: keys with values, `none` standing for JSON
`null`. Pydantic `mode="before"` validators see exactly this dictionary. -/
abbrev RawBody := List (String × Option JsonVal)

/-- `UserRole` enum from `app/models/user_model.py`. -/
inductive UserRole where
  | ANONYMOUS
  | AUTHENTICATED
  | MANAGER
  | ADMIN
deriving DecidableEq, Repr

/-- The `users` row (`class User` in `app/models/user_model.py`): identity,
profile, auth/role, professional-status and account/activity columns. -/
structure UserRecord where
  id : Nat
  nickname : String
  email : String
  first_name : Option String
  last_name : Option String
  bio : Option String
  profile_picture_url : Option String
  linkedin_profile_url : Option String
  github_profile_url : Option String
  location : Option String
  extra_fields : Option (List (String × String))
  role : UserRole
  email_verified : Bool
  hashed_password : String
  verification_token : Option String
  is_professional : Bool
  professional_status_updated_at : Option Nat
  professional_upgraded_by_id : Option Nat
  last_login_at : Option Nat
  failed_login_attempts : Nat
  is_locked : Bool
  created_at : Nat
  updated_at : Nat
deriving DecidableEq, Repr

namespace User

/-- `User.mark_professional`: set professional True and stamp who/when with a
Python-side timestamp (`datetime.now(timezone.utc)` is the `now` argument). -/
def mark_professional (u : UserRecord) (now : Nat) (by_user_id : Option Nat) : UserRecord :=
  { u with
    is_professional := true
    professional_status_updated_at := some now
    professional_upgraded_by_id := by_user_id }

/-- `User.clear_professional`: unset professional and stamp when cleared. -/
def clear_professional (u : UserRecord) (now : Nat) : UserRecord :=
  { u with
    is_professional := false
    professional_status_updated_at := some now
    professional_upgraded_by_id := none }

/-- `User.update_professional_status`. -/
def update_professional_status (u : UserRecord) (status : Bool) (now : Nat)
    (by_user_id : Option Nat) : UserRecord :=
  if status then mark_professional u now by_user_id else clear_professional u now

end User

/-- Commit-time effect of the column-level `onupdate=func.now()` hooks in
`app/models/user_model.py`: when a flush emits an UPDATE for a dirty row,
`updated_at` (line 74) and `professional_status_updated_at` (line 57) are set
to the current database time, the latter only when it was not explicitly
assigned during this unit of work (an explicit assignment wins over the
hook). -/
def ormOnupdate (u : UserRecord) (psua_assigned : Bool) (now : Nat) : UserRecord :=
  { u with
    updated_at := now
    professional_status_updated_at :=
      if psua_assigned then u.professional_status_updated_at else some now }

/-- Raw-body lookup: `none` if the key is absent, `some v` if present
(`v = none` being JSON `null`). -/
def getRaw (raw : RawBody) (k : String) : Option (Option JsonVal) :=
  match List.find? (fun kv => kv.1 == k) raw with
  | none => none
  | some kv => some kv.2

/-- The parsed `ProfileUpdate` schema (`app/schemas/user_schemas.py`): the
caller's own editable fields. The outer `Option` records whether the field was
present in the request (pydantic "set"); the inner `Option` is the value,
`none` being an explicit `null`. -/
structure ProfileUpdate where
  first_name : Option (Option String)
  last_name : Option (Option String)
  bio : Option (Option String)
  location : Option (Option String)
  extra_fields : Option (Option (List (String × String)))
deriving DecidableEq, Repr

/-- The `_at_least_one` model validator of `ProfileUpdate` (mode `before`):
the raw body must be non-empty and carry at least one non-`null` value. -/
def atLeastOneProvided (raw : RawBody) : Bool :=
  List.any raw (fun kv => kv.2.isSome)

/-- Extraction and validation of one `Optional[str]` field with a
`max_length` bound, as pydantic performs after the model validator. -/
def parseStrField (raw : RawBody) (k : String) (maxLen : Nat) :
    Except String (Option (Option String)) :=
  match getRaw raw k with
  | none => .ok none
  | some none => .ok (some none)
  | some (some (.str s)) =>
      if s.length ≤ maxLen then .ok (some (some s))
      else .error ("String should have at most given length: " ++ k)
  | some (some _) => .error ("Input should be a valid string: " ++ k)

/-- Extraction of the `Optional[dict[str, Any]]` field `extra_fields`. -/
def parseDictField (raw : RawBody) (k : String) :
    Except String (Option (Option (List (String × String)))) :=
  match getRaw raw k with
  | none => .ok none
  | some none => .ok (some none)
  | some (some (.obj kvs)) => .ok (some (some kvs))
  | some (some _) => .error ("Input should be a valid dictionary: " ++ k)

/-- Validation of a `PATCH /profile/me` body into a `ProfileUpdate`: the
`_at_least_one` model validator first, then field parsing with the
`max_length` bounds of `ProfileUpdate` (100/100/2000/120). Unknown keys are
ignored by pydantic's default config. -/
def parseProfileUpdate (raw : RawBody) : Except String ProfileUpdate :=
  if atLeastOneProvided raw then do
    let fn ← parseStrField raw "first_name" 100
    let ln ← parseStrField raw "last_name" 100
    let b ← parseStrField raw "bio" 2000
    let loc ← parseStrField raw "location" 120
    let ef ← parseDictField raw "extra_fields"
    .ok ⟨fn, ln, b, loc, ef⟩
  else .error "At least one field must be provided for update"

/-- The `update_profile_me` handler's assignment loop
(`profile_routes.py` lines 19-20): `setattr` for each entry of
`payload.model_dump(exclude_unset=True)`, i.e. for each field present in the
request, in model declaration order. -/
def applyProfileUpdate (u : UserRecord) (p : ProfileUpdate) : UserRecord :=
  let u := match p.first_name with
    | none => u
    | some v => { u with first_name := v }
  let u := match p.last_name with
    | none => u
    | some v => { u with last_name := v }
  let u := match p.bio with
    | none => u
    | some v => { u with bio := v }
  let u := match p.location with
    | none => u
    | some v => { u with location := v }
  match p.extra_fields with
  | none => u
  | some v => { u with extra_fields := v }

/-- Whether the handler assigned at least one attribute, i.e. whether the
commit emits an UPDATE for the row (firing the `onupdate` hooks). -/
def ProfileUpdate.hasSetField (p : ProfileUpdate) : Bool :=
  p.first_name.isSome || p.last_name.isSome || p.bio.isSome ||
    p.location.isSome || p.extra_fields.isSome

/-- `PATCH /profile/me` end to end (`update_profile_me` in
`profile_routes.py`): validate the body, apply the provided fields to the
current user, commit. The commit's UPDATE fires the `onupdate` hooks for
`updated_at` and `professional_status_updated_at`, neither of which the
handler ever assigns. A validation error surfaces before any mutation. -/
def patch_profile_me (u : UserRecord) (raw : RawBody) (now : Nat) :
    Except String UserRecord :=
  match parseProfileUpdate raw with
  | .error e => .error e
  | .ok p =>
      let u' := applyProfileUpdate u p
      .ok (if p.hasSetField then ormOnupdate u' false now else u')

/-- Persisted state of the current user after a `PATCH /profile/me` request:
on a validation error nothing was mutated, so the prior state stands. -/
def stateAfterPatch (u : UserRecord) (raw : RawBody) (now : Nat) : UserRecord :=
  match patch_profile_me u raw now with
  | .error _ => u
  | .ok u' => u'

/-- `AdminUpgradeRequest` schema: target id, desired status, optional
free-text reason. -/
structure AdminUpgradeRequest where
  user_id : Nat
  professional : Bool
  reason : Option String
deriving DecidableEq, Repr

/-- An HTTP error response (`HTTPException`). -/
structure HttpError where
  status_code : Nat
  detail : String
deriving DecidableEq, Repr

/-- The database's `users` table as a list of rows; `db.get(User, id)` is a
primary-key lookup. -/
def db_get (db : List UserRecord) (uid : Nat) : Option UserRecord :=
  List.find? (fun u => u.id == uid) db

/-- `POST /profile/upgrade` end to end (`upgrade_user_to_professional` in
`profile_routes.py`): fetch the target by primary key, 404 if absent,
otherwise `update_professional_status(body.professional, by_user_id=actor.id)`
followed by the commit (whose UPDATE bumps `updated_at`;
`professional_status_updated_at` was explicitly assigned, so its hook does
not override it). The `reason` field of the body is never read. Returns the
resulting table and the refreshed target row. -/
def upgrade_user_to_professional (db : List UserRecord) (body : AdminUpgradeRequest)
    (actor : UserRecord) (now : Nat) : Except HttpError (List UserRecord × UserRecord) :=
  match db_get db body.user_id with
  | none => .error ⟨404, "User not found"⟩
  | some target =>
      let target := User.update_professional_status target body.professional now (some actor.id)
      let target := ormOnupdate target true now
      .ok (List.map (fun u => if u.id = body.user_id then target else u) db, target)

/-- The `users` table after a `POST /profile/upgrade` request: a 404 raised
before any mutation leaves the table as it was. -/
def dbAfterUpgrade (db : List UserRecord) (body : AdminUpgradeRequest)
    (actor : UserRecord) (now : Nat) : List UserRecord :=
  match upgrade_user_to_professional db body actor now with
  | .error _ => db
  | .ok (db', _) => db'

/-- `UserResponse` (`app/schemas/user_schemas.py` lines 137-158): the
response model of both profile endpoints. Its declared fields are the
identity/profile/role fields plus `professional`, populated from the row's
`is_professional` via the field alias. `location`, `extra_fields` and the
professional audit columns are declared only on `UserDetail`, which neither
endpoint uses. -/
structure UserResponse where
  id : Nat
  email : String
  nickname : Option String
  first_name : Option String
  last_name : Option String
  bio : Option String
  profile_picture_url : Option String
  linkedin_profile_url : Option String
  github_profile_url : Option String
  role : UserRole
  professional : Bool
deriving DecidableEq, Repr

/-- Serialized name of a `UserRole` value. -/
def UserRole.toName : UserRole → String
  | .ANONYMOUS => "ANONYMOUS"
  | .AUTHENTICATED => "AUTHENTICATED"
  | .MANAGER => "MANAGER"
  | .ADMIN => "ADMIN"

/-- `response_model=UserResponse` population `from_attributes`: each declared
field is read off the ORM entity; `professional` reads `is_professional`. -/
def UserResponse.ofUser (u : UserRecord) : UserResponse :=
  { id := u.id
    email := u.email
    nickname := some u.nickname
    first_name := u.first_name
    last_name := u.last_name
    bio := u.bio
    profile_picture_url := u.profile_picture_url
    linkedin_profile_url := u.linkedin_profile_url
    github_profile_url := u.github_profile_url
    role := u.role
    professional := u.is_professional }

/-- An optional string rendered to JSON (`null` when absent). -/
def optStrJson : Option String → Option JsonVal
  | none => none
  | some s => some (.str s)

/-- JSON body produced by serializing a `UserResponse`: exactly the declared
fields of the model, in declaration order. FastAPI serializes the response
model with `response_model_by_alias=True` by default (neither route overrides
it), so the `professional` field appears on the wire under its declared alias
`is_professional`; every other field has no alias and keeps its name. -/
def UserResponse.serialize (r : UserResponse) : List (String × Option JsonVal) :=
  [ ("id", some (.num (Int.ofNat r.id)))
  , ("email", some (.str r.email))
  , ("nickname", optStrJson r.nickname)
  , ("first_name", optStrJson r.first_name)
  , ("last_name", optStrJson r.last_name)
  , ("bio", optStrJson r.bio)
  , ("profile_picture_url", optStrJson r.profile_picture_url)
  , ("linkedin_profile_url", optStrJson r.linkedin_profile_url)
  , ("github_profile_url", optStrJson r.github_profile_url)
  , ("role", some (.str r.role.toName))
  , ("is_professional", some (.bool r.professional)) ]

/-- The serialized response body for an entity returned by either profile
endpoint. -/
def serializeUser (u : UserRecord) : List (String × Option JsonVal) :=
  (UserResponse.ofUser u).serialize

/-! ## The idempotent migration (`9a61ec22c854_add_professional_status_fields.py`) -/

/-- A column of the `users` table as the migration sees it: name, rendered
type, nullability and server default. -/
structure ColumnSpec where
  name : String
  type_ : String
  nullable : Bool
  server_default : Option String
deriving DecidableEq, Repr

/-- The live `users` table schema: its columns and the names of its foreign
key constraints, as reported by `sa.inspect`. -/
structure UsersSchema where
  cols : List ColumnSpec
  fks : List String
deriving DecidableEq, Repr

/-- Column names of a schema (`{c["name"] for c in insp.get_columns("users")}`). -/
def colNames (s : UsersSchema) : List String :=
  List.map ColumnSpec.name s.cols

/-- `op.add_column`: fails with a duplicate-column error when a column of
that name already exists. -/
def add_column (s : UsersSchema) (c : ColumnSpec) : Except String UsersSchema :=
  if c.name ∈ colNames s then .error ("duplicate column: " ++ c.name)
  else .ok { s with cols := s.cols ++ [c] }

/-- `op.create_foreign_key`: fails when a constraint of that name already
exists or the constrained column is absent. -/
def create_foreign_key (s : UsersSchema) (fkName : String) (col : String) :
    Except String UsersSchema :=
  if fkName ∈ s.fks then .error ("duplicate constraint: " ++ fkName)
  else if col ∈ colNames s then .ok { s with fks := s.fks ++ [fkName] }
  else .error ("missing column for constraint: " ++ col)

/-- `op.drop_constraint`: fails when no constraint of that name exists. -/
def drop_constraint (s : UsersSchema) (fkName : String) : Except String UsersSchema :=
  if fkName ∈ s.fks then .ok { s with fks := List.filter (fun n => n ≠ fkName) s.fks }
  else .error ("missing constraint: " ++ fkName)

/-- `op.drop_column`: fails when no column of that name exists. -/
def drop_column (s : UsersSchema) (cname : String) : Except String UsersSchema :=
  if cname ∈ colNames s then
    .ok { s with cols := List.filter (fun c => c.name ≠ cname) s.cols }
  else .error ("missing column: " ++ cname)

/-- `sa.Column("location", sa.String(length=120), nullable=True)`. -/
def locationCol : ColumnSpec := ⟨"location", "VARCHAR(120)", true, none⟩

/-- `sa.Column("is_professional", sa.Boolean(), nullable=False, server_default=sa.text("false"))`. -/
def isProfessionalCol : ColumnSpec := ⟨"is_professional", "BOOLEAN", false, some "false"⟩

/-- `sa.Column("professional_status_updated_at", sa.DateTime(timezone=True), nullable=True)`. -/
def psuaCol : ColumnSpec := ⟨"professional_status_updated_at", "TIMESTAMPTZ", true, none⟩

/-- `sa.Column("professional_upgraded_by_id", postgresql.UUID(), nullable=True)`. -/
def pubiCol : ColumnSpec := ⟨"professional_upgraded_by_id", "UUID", true, none⟩

/-- `sa.Column("extra_fields", postgresql.JSONB(...), nullable=True)`. -/
def extraFieldsCol : ColumnSpec := ⟨"extra_fields", "JSONB", true, none⟩

/-- The self-FK constraint name used by the migration. -/
def fkName : String := "fk_users_professional_upgraded_by"

/-- `upgrade()` of revision 9a61ec22c854: snapshot the existing column and
constraint names, then add each of the five columns only if absent from the
snapshot, and finally create the self-FK only if its name is absent. -/
def migrationUpgrade (s : UsersSchema) : Except String UsersSchema := do
  let existing_cols := colNames s
  let existing_fks := s.fks
  let s ← if "location" ∈ existing_cols then pure s else add_column s locationCol
  let s ← if "is_professional" ∈ existing_cols then pure s else add_column s isProfessionalCol
  let s ← if "professional_status_updated_at" ∈ existing_cols then pure s
          else add_column s psuaCol
  let s ← if "professional_upgraded_by_id" ∈ existing_cols then pure s
          else add_column s pubiCol
  let s ← if "extra_fields" ∈ existing_cols then pure s else add_column s extraFieldsCol
  if fkName ∈ existing_fks then pure s
  else create_foreign_key s fkName "professional_upgraded_by_id"

/-- `downgrade()` of revision 9a61ec22c854: snapshot the existing names, drop
the self-FK first if present, then drop each of the five columns (in the
source's tuple order) only if present in the snapshot. -/
def migrationDowngrade (s : UsersSchema) : Except String UsersSchema := do
  let existing_cols := colNames s
  let existing_fks := s.fks
  let s ← if fkName ∈ existing_fks then drop_constraint s fkName else pure s
  let s ← if "extra_fields" ∈ existing_cols then drop_column s "extra_fields" else pure s
  let s ← if "professional_upgraded_by_id" ∈ existing_cols then
            drop_column s "professional_upgraded_by_id"
          else pure s
  let s ← if "professional_status_updated_at" ∈ existing_cols then
            drop_column s "professional_status_updated_at"
          else pure s
  let s ← if "is_professional" ∈ existing_cols then drop_column s "is_professional" else pure s
  if "location" ∈ existing_cols then drop_column s "location" else pure s

/-! ## Reachable states of one user under the two endpoints -/

/-- One in-scope mutation of a given user row: a `PATCH /profile/me` issued
by that user, or a `POST /profile/upgrade` targeting that user (the row
transformation the endpoint applies once the target is found). -/
inductive ProfileOp where
  | patchMe (raw : RawBody) (now : Nat)
  | setStatus (status : Bool) (actorId : Nat) (now : Nat)

/-- Effect of one operation on the user's persisted row. -/
def stepUser (u : UserRecord) : ProfileOp → UserRecord
  | .patchMe raw now => stateAfterPatch u raw now
  | .setStatus status actorId now =>
      ormOnupdate (User.update_professional_status u status now (some actorId)) true now

/-- The user's row after a sequence of in-scope operations. -/
def runOps (u : UserRecord) (ops : List ProfileOp) : UserRecord :=
  List.foldl stepUser u ops

/-- The audit invariant: a user who is not professional carries no upgrader
reference. -/
def profInvariant (u : UserRecord) : Prop :=
  u.is_professional = false → u.professional_upgraded_by_id = none

/-! ## Concrete fixtures -/

/-- A professional user row (upgraded at time 100 by user 9). -/
def aliceRow : UserRecord :=
  { id := 1
    nickname := "alice"
    email := "alice@example.com"
    first_name := some "Alice"
    last_name := some "Artisan"
    bio := some "old bio"
    profile_picture_url := none
    linkedin_profile_url := none
    github_profile_url := none
    location := some "Berlin"
    extra_fields := none
    role := .AUTHENTICATED
    email_verified := true
    hashed_password := "hash-a"
    verification_token := none
    is_professional := true
    professional_status_updated_at := some 100
    professional_upgraded_by_id := some 9
    last_login_at := none
    failed_login_attempts := 0
    is_locked := false
    created_at := 10
    updated_at := 50 }

/-- An admin row acting as the caller of `POST /profile/upgrade`. -/
def adminRow : UserRecord :=
  { aliceRow with
    id := 2
    nickname := "root"
    email := "root@example.com"
    role := .ADMIN
    is_professional := false
    professional_status_updated_at := none
    professional_upgraded_by_id := none }

/-! ## Helper lemmas -/

theorem except_bind_ok {α β : Type} (a : α) (f : α → Except String β) :
    (Except.ok a >>= f) = f a := rfl

theorem except_bind_err {α β : Type} (e : String) (f : α → Except String β) :
    ((Except.error e : Except String α) >>= f) = Except.error e := rfl

theorem except_pure {α : Type} (a : α) : (pure a : Except String α) = Except.ok a := rfl

theorem applyProfileUpdate_frame (u : UserRecord) (p : ProfileUpdate) :
    (applyProfileUpdate u p).id = u.id ∧
    (applyProfileUpdate u p).nickname = u.nickname ∧
    (applyProfileUpdate u p).email = u.email ∧
    (applyProfileUpdate u p).profile_picture_url = u.profile_picture_url ∧
    (applyProfileUpdate u p).linkedin_profile_url = u.linkedin_profile_url ∧
    (applyProfileUpdate u p).github_profile_url = u.github_profile_url ∧
    (applyProfileUpdate u p).role = u.role ∧
    (applyProfileUpdate u p).email_verified = u.email_verified ∧
    (applyProfileUpdate u p).hashed_password = u.hashed_password ∧
    (applyProfileUpdate u p).verification_token = u.verification_token ∧
    (applyProfileUpdate u p).is_professional = u.is_professional ∧
    (applyProfileUpdate u p).professional_status_updated_at = u.professional_status_updated_at ∧
    (applyProfileUpdate u p).professional_upgraded_by_id = u.professional_upgraded_by_id ∧
    (applyProfileUpdate u p).last_login_at = u.last_login_at ∧
    (applyProfileUpdate u p).failed_login_attempts = u.failed_login_attempts ∧
    (applyProfileUpdate u p).is_locked = u.is_locked ∧
    (applyProfileUpdate u p).created_at = u.created_at ∧
    (applyProfileUpdate u p).updated_at = u.updated_at := by
  obtain ⟨fn, ln, b, loc, ef⟩ := p
  cases fn <;> cases ln <;> cases b <;> cases loc <;> cases ef <;>
    simp [applyProfileUpdate]

theorem stateAfterPatch_profFields (u : UserRecord) (raw : RawBody) (now : Nat) :
    (stateAfterPatch u raw now).is_professional = u.is_professional ∧
    (stateAfterPatch u raw now).professional_upgraded_by_id =
      u.professional_upgraded_by_id := by
  unfold stateAfterPatch patch_profile_me
  cases hp : parseProfileUpdate raw with
  | error e => simp
  | ok p =>
      have hf := applyProfileUpdate_frame u p
      by_cases hs : p.hasSetField <;>
        simp [hs, ormOnupdate, hf.2.2.2.2.2.2.2.2.2.2.1,
          hf.2.2.2.2.2.2.2.2.2.2.2.2.1]

theorem mem_map_name_filter {l : List ColumnSpec} {x b : String} :
    b ∈ List.map ColumnSpec.name (List.filter (fun c => !decide (c.name = x)) l) ↔
      b ∈ List.map ColumnSpec.name l ∧ ¬(b = x) := by
  constructor
  · intro h
    obtain ⟨c, hc, rfl⟩ := List.mem_map.mp h
    have hm := List.mem_filter.mp hc
    refine ⟨List.mem_map.mpr ⟨c, hm.1, rfl⟩, by simpa using hm.2⟩
  · rintro ⟨hb, hne⟩
    obtain ⟨c, hc, rfl⟩ := List.mem_map.mp hb
    exact List.mem_map.mpr ⟨c, List.mem_filter.mpr ⟨hc, by simpa using hne⟩, rfl⟩

set_option maxHeartbeats 4000000 in
theorem migrationUpgrade_ok (s : UsersSchema) :
    ∃ s1, migrationUpgrade s = .ok s1 ∧
      "location" ∈ colNames s1 ∧ "is_professional" ∈ colNames s1 ∧
      "professional_status_updated_at" ∈ colNames s1 ∧
      "professional_upgraded_by_id" ∈ colNames s1 ∧
      "extra_fields" ∈ colNames s1 ∧ fkName ∈ s1.fks := by
  by_cases h1 : "location" ∈ colNames s <;>
  by_cases h2 : "is_professional" ∈ colNames s <;>
  by_cases h3 : "professional_status_updated_at" ∈ colNames s <;>
  by_cases h4 : "professional_upgraded_by_id" ∈ colNames s <;>
  by_cases h5 : "extra_fields" ∈ colNames s <;>
  by_cases h6 : fkName ∈ s.fks <;>
  · simp only [colNames, List.mem_map] at h1 h2 h3 h4 h5
    simp [migrationUpgrade, except_bind_ok, except_bind_err, except_pure, add_column,
      create_foreign_key, colNames, h1, h2, h3, h4, h5, h6, locationCol, isProfessionalCol,
      psuaCol, pubiCol, extraFieldsCol, List.mem_append, List.mem_singleton, or_and_right,
      exists_or, exists_eq_left]

set_option maxHeartbeats 4000000 in
theorem migrationDowngrade_ok (s : UsersSchema) :
    ∃ s2, migrationDowngrade s = .ok s2 ∧
      "location" ∉ colNames s2 ∧ "is_professional" ∉ colNames s2 ∧
      "professional_status_updated_at" ∉ colNames s2 ∧
      "professional_upgraded_by_id" ∉ colNames s2 ∧
      "extra_fields" ∉ colNames s2 ∧ fkName ∉ s2.fks := by
  by_cases h1 : "location" ∈ colNames s <;>
  by_cases h2 : "is_professional" ∈ colNames s <;>
  by_cases h3 : "professional_status_updated_at" ∈ colNames s <;>
  by_cases h4 : "professional_upgraded_by_id" ∈ colNames s <;>
  by_cases h5 : "extra_fields" ∈ colNames s <;>
  by_cases h6 : fkName ∈ s.fks <;>
  · simp only [colNames] at h1 h2 h3 h4 h5
    simp [migrationDowngrade, except_bind_ok, except_bind_err, except_pure, drop_column,
      drop_constraint, colNames, h1, h2, h3, h4, h5, h6, mem_map_name_filter, List.mem_filter,
      -List.mem_map, -List.filter_filter]

/-! ## Claims -/

/-- Claim C1 (code bug, evaluated at the failing input): the spec promises
that a `PATCH /profile/me` leaves every omitted field — explicitly including
`professional_status_updated_at` — at its prior value, but the
`onupdate=func.now()` hook on that column (`user_model.py` line 57) restamps
it on every UPDATE of the row: a body touching only `bio` moves the audit
timestamp from 100 to the commit time 200, while the explicit stamping in
`mark_professional`/`clear_professional` shows the column is meant to track
professional-status transitions only. -/
theorem claim1_profile_update_bumps_audit_timestamp :
    aliceRow.professional_status_updated_at = some 100 ∧
    (match patch_profile_me aliceRow [("bio", some (.str "new bio"))] 200 with
     | .ok u1 => some u1.professional_status_updated_at
     | .error _ => none) = some (some 200) ∧
    (match patch_profile_me aliceRow [("bio", some (.str "new bio"))] 200 with
     | .ok u1 => some u1.bio
     | .error _ => none) = some (some "new bio") := by
  decide

/-- Claim C2: for every existing target, `POST /profile/upgrade` with
status true sets `is_professional := true`, stamps a fresh timestamp
strictly greater than the prior one (the wall clock, modelled as `now`,
having advanced past any prior stamp) and records the acting user's id as
the upgrader; with status false it clears the flag, stamps a fresh
timestamp, and nulls the upgrader reference. -/
theorem claim2_upgrade_sets_status_stamp_and_upgrader :
    ∀ (db : List UserRecord) (body : AdminUpgradeRequest) (actor : UserRecord)
      (now : Nat) (target : UserRecord),
    db_get db body.user_id = some target →
    (∀ t0, target.professional_status_updated_at = some t0 → t0 < now) →
    ∃ db' u', upgrade_user_to_professional db body actor now = .ok (db', u') ∧
      u'.is_professional = body.professional ∧
      (∃ tNew, u'.professional_status_updated_at = some tNew ∧
        ∀ t0, target.professional_status_updated_at = some t0 → t0 < tNew) ∧
      u'.professional_upgraded_by_id =
        (if body.professional then some actor.id else none) := by
  intro db body actor now target hget hclock
  unfold upgrade_user_to_professional
  rw [hget]
  refine ⟨_, _, rfl, ?_, ⟨now, ?_, hclock⟩, ?_⟩ <;>
    cases hb : body.professional <;>
      simp [hb, ormOnupdate, User.update_professional_status, User.mark_professional,
        User.clear_professional]

/-- Witness for C2 at a concrete input: admin 2 upgrades user 1 (previous
stamp 100) at time 200. -/
theorem claim2_witness :
    ∃ db' u',
      upgrade_user_to_professional [aliceRow] ⟨1, true, none⟩ adminRow 200 = .ok (db', u') ∧
      u'.is_professional = (AdminUpgradeRequest.mk 1 true none).professional ∧
      (∃ tNew, u'.professional_status_updated_at = some tNew ∧
        ∀ t0, aliceRow.professional_status_updated_at = some t0 → t0 < tNew) ∧
      u'.professional_upgraded_by_id =
        (if (AdminUpgradeRequest.mk 1 true none).professional then some adminRow.id
         else none) := by
  refine claim2_upgrade_sets_status_stamp_and_upgrader
    [aliceRow] ⟨1, true, none⟩ adminRow 200 aliceRow rfl ?_
  intro t0 h
  simp [aliceRow] at h
  omega

/-- Claim C3: from any starting schema, the idempotent migration's upgrade
step succeeds and running it a second time succeeds and changes nothing (no
duplicate-column or duplicate-constraint error), and the downgrade step
succeeds and running it a second time succeeds and changes nothing (no
missing-column or missing-constraint error): every add/drop is guarded by an
existence check against the live schema. -/
theorem claim3_migration_idempotent :
    ∀ s : UsersSchema,
    (∃ s1, migrationUpgrade s = .ok s1 ∧ migrationUpgrade s1 = .ok s1) ∧
    (∃ s2, migrationDowngrade s = .ok s2 ∧ migrationDowngrade s2 = .ok s2) := by
  intro s
  constructor
  · obtain ⟨s1, hok, m1, m2, m3, m4, m5, m6⟩ := migrationUpgrade_ok s
    exact ⟨s1, hok, by
      simp [migrationUpgrade, except_bind_ok, except_pure, m1, m2, m3, m4, m5, m6]⟩
  · obtain ⟨s2, hok, m1, m2, m3, m4, m5, m6⟩ := migrationDowngrade_ok s
    exact ⟨s2, hok, by
      simp [migrationDowngrade, except_bind_ok, except_pure, m1, m2, m3, m4, m5, m6]⟩

/-- Claim C4: a `POST /profile/upgrade` whose `user_id` resolves to no user
returns a 404 response and the `users` table after the call equals the table
before it (the exception is raised before any mutation). -/
theorem claim4_upgrade_missing_user_404 :
    ∀ (db : List UserRecord) (body : AdminUpgradeRequest) (actor : UserRecord) (now : Nat),
    db_get db body.user_id = none →
    upgrade_user_to_professional db body actor now = .error ⟨404, "User not found"⟩ ∧
    dbAfterUpgrade db body actor now = db := by
  intro db body actor now h
  simp [upgrade_user_to_professional, dbAfterUpgrade, h]

/-- Witness for C4: id 999 resolves to nothing in a one-user table. -/
theorem claim4_witness :
    upgrade_user_to_professional [aliceRow] ⟨999, true, none⟩ adminRow 200 =
      .error ⟨404, "User not found"⟩ ∧
    dbAfterUpgrade [aliceRow] ⟨999, true, none⟩ adminRow 200 = [aliceRow] :=
  claim4_upgrade_missing_user_404 [aliceRow] ⟨999, true, none⟩ adminRow 200 rfl

/-- Claim C5: a `PATCH /profile/me` body with zero fields set (the empty
JSON object) is rejected by the `_at_least_one` validator and never
persisted: the user's state is unchanged. -/
theorem claim5_empty_payload_rejected :
    ∀ (u : UserRecord) (now : Nat),
    patch_profile_me u [] now = .error "At least one field must be provided for update" ∧
    stateAfterPatch u [] now = u := by
  intro u now
  exact ⟨rfl, rfl⟩

/-- Claim C6: the predicate "not professional implies no upgrader
reference" holds in every state reachable from a state satisfying it via
any sequence of profile self-updates and professional-status upgrades:
clearing the status clears the upgrader, and no other in-scope operation
touches the upgrader reference. -/
theorem claim6_audit_invariant_preserved :
    ∀ (u : UserRecord) (ops : List ProfileOp),
    profInvariant u → profInvariant (runOps u ops) := by
  intro u ops
  induction ops generalizing u with
  | nil => intro h; exact h
  | cons op rest ih =>
      intro h
      refine ih (stepUser u op) ?_
      cases op with
      | patchMe raw now =>
          intro hfalse
          obtain ⟨h1, h2⟩ := stateAfterPatch_profFields u raw now
          simp only [stepUser] at hfalse ⊢
          rw [h2]
          exact h (h1 ▸ hfalse)
      | setStatus status actorId now =>
          intro hfalse
          cases status <;>
            simp_all [stepUser, ormOnupdate, User.update_professional_status,
              User.mark_professional, User.clear_professional]

/-- Witness for C6: the invariant survives an upgrade, a profile edit and a
downgrade starting from a non-professional admin row. -/
theorem claim6_witness :
    profInvariant (runOps adminRow
      [ProfileOp.setStatus true 2 300,
       ProfileOp.patchMe [("bio", some (.str "hi"))] 400,
       ProfileOp.setStatus false 2 500]) :=
  claim6_audit_invariant_preserved adminRow
    [ProfileOp.setStatus true 2 300,
     ProfileOp.patchMe [("bio", some (.str "hi"))] 400,
     ProfileOp.setStatus false 2 500]
    (fun _ => rfl)

/-- Claim C7 counterexample: a profile update that sets `location` commits
it, yet the serialized response (built from `UserResponse`, the response
model of both endpoints) carries no `location` and no `extra_fields` key at
all — the claim that those fields appear with their post-commit values is
false at this input. -/
theorem claim7_location_absent_from_response :
    (stateAfterPatch aliceRow [("location", some (.str "Paris"))] 300).location =
      some "Paris" ∧
    "location" ∉ List.map Prod.fst
      (serializeUser (stateAfterPatch aliceRow [("location", some (.str "Paris"))] 300)) ∧
    "extra_fields" ∉ List.map Prod.fst
      (serializeUser (stateAfterPatch aliceRow [("location", some (.str "Paris"))] 300)) := by
  decide

/-- Claim C7 as amended: on success both endpoints return the
`UserResponse` view of the post-commit entity — id, email, nickname, name
parts, bio, the three profile URLs, role and the professional flag
(serialized under its alias key `is_professional`), each with its
post-commit value — while `location`, `extra_fields` and the professional
audit timestamp/upgrader fields are not part of the response even when the
update set them. -/
theorem claim7_amended_response_is_userresponse_view :
    (∀ (u : UserRecord) (raw : RawBody) (now : Nat) (u' : UserRecord),
      patch_profile_me u raw now = .ok u' →
      serializeUser u' =
        [ ("id", some (.num (Int.ofNat u'.id)))
        , ("email", some (.str u'.email))
        , ("nickname", some (.str u'.nickname))
        , ("first_name", optStrJson u'.first_name)
        , ("last_name", optStrJson u'.last_name)
        , ("bio", optStrJson u'.bio)
        , ("profile_picture_url", optStrJson u'.profile_picture_url)
        , ("linkedin_profile_url", optStrJson u'.linkedin_profile_url)
        , ("github_profile_url", optStrJson u'.github_profile_url)
        , ("role", some (.str u'.role.toName))
        , ("is_professional", some (.bool u'.is_professional)) ] ∧
      "location" ∉ List.map Prod.fst (serializeUser u') ∧
      "extra_fields" ∉ List.map Prod.fst (serializeUser u')) ∧
    (∀ (db : List UserRecord) (body : AdminUpgradeRequest) (actor : UserRecord)
        (now : Nat) (db' : List UserRecord) (t : UserRecord),
      upgrade_user_to_professional db body actor now = .ok (db', t) →
      serializeUser t =
        [ ("id", some (.num (Int.ofNat t.id)))
        , ("email", some (.str t.email))
        , ("nickname", some (.str t.nickname))
        , ("first_name", optStrJson t.first_name)
        , ("last_name", optStrJson t.last_name)
        , ("bio", optStrJson t.bio)
        , ("profile_picture_url", optStrJson t.profile_picture_url)
        , ("linkedin_profile_url", optStrJson t.linkedin_profile_url)
        , ("github_profile_url", optStrJson t.github_profile_url)
        , ("role", some (.str t.role.toName))
        , ("is_professional", some (.bool t.is_professional)) ] ∧
      "location" ∉ List.map Prod.fst (serializeUser t) ∧
      "extra_fields" ∉ List.map Prod.fst (serializeUser t)) := by
  constructor
  · intro u raw now u' _
    refine ⟨rfl, ?_, ?_⟩ <;>
      simp [serializeUser, UserResponse.serialize, UserResponse.ofUser]
  · intro db body actor now db' t _
    refine ⟨rfl, ?_, ?_⟩ <;>
      simp [serializeUser, UserResponse.serialize, UserResponse.ofUser]

/-- Witness for the amended C7 at concrete successful calls of both
endpoints. -/
theorem claim7_witness :
    "location" ∉ List.map Prod.fst
      (serializeUser (stateAfterPatch aliceRow [("bio", some (.str "x"))] 400)) ∧
    ∃ db' t, upgrade_user_to_professional [aliceRow] ⟨1, false, none⟩ adminRow 500 =
        .ok (db', t) ∧
      "extra_fields" ∉ List.map Prod.fst (serializeUser t) := by
  constructor
  · exact (claim7_amended_response_is_userresponse_view.1 aliceRow
      [("bio", some (.str "x"))] 400 _ rfl).2.1
  · exact ⟨_, _, rfl, (claim7_amended_response_is_userresponse_view.2 [aliceRow]
      ⟨1, false, none⟩ adminRow 500 _ _ rfl).2.2⟩

/-- Claim C8: the `reason` field of an upgrade request is never read, never
persisted, and never affects the outcome — two requests identical except
for `reason` produce identical results (table, entity and hence response
body). -/
theorem claim8_reason_has_no_effect :
    ∀ (db : List UserRecord) (b1 b2 : AdminUpgradeRequest) (actor : UserRecord) (now : Nat),
    b1.user_id = b2.user_id → b1.professional = b2.professional →
    upgrade_user_to_professional db b1 actor now =
      upgrade_user_to_professional db b2 actor now := by
  intro db b1 b2 actor now h1 h2
  cases b1
  cases b2
  simp_all
  subst h1 h2
  rfl

/-- Witness for C8: same request with `reason` absent vs. present. -/
theorem claim8_witness :
    upgrade_user_to_professional [aliceRow] ⟨1, true, none⟩ adminRow 300 =
      upgrade_user_to_professional [aliceRow] ⟨1, true, some "performance"⟩ adminRow 300 :=
  claim8_reason_has_no_effect [aliceRow] ⟨1, true, none⟩ ⟨1, true, some "performance"⟩
    adminRow 300 rfl rfl

/-- Claim C9: a `PATCH /profile/me` body is rejected whenever every provided
value is null, even with keys present; conversely any accepted body carries
at least one key whose value is non-null. -/
theorem claim9_all_null_payload_rejected :
    ∀ (u : UserRecord) (raw : RawBody) (now : Nat),
    ((∀ kv ∈ raw, kv.2 = none) →
      patch_profile_me u raw now = .error "At least one field must be provided for update") ∧
    (∀ u', patch_profile_me u raw now = .ok u' → ∃ kv ∈ raw, kv.2 ≠ none) := by
  intro u raw now
  constructor
  · intro h
    have ha : atLeastOneProvided raw = false := by
      simp only [atLeastOneProvided, List.any_eq_false]
      intro kv hkv
      simp [h kv hkv]
    simp [patch_profile_me, parseProfileUpdate, ha]
  · intro u' hok
    by_contra hno
    push_neg at hno
    have ha : atLeastOneProvided raw = false := by
      simp only [atLeastOneProvided, List.any_eq_false]
      intro kv hkv
      simp [hno kv hkv]
    simp [patch_profile_me, parseProfileUpdate, ha] at hok

/-- Witness for C9: `{"bio": null}` is rejected; an accepted body
`{"bio": "hey"}` contains a non-null value. -/
theorem claim9_witness :
    patch_profile_me aliceRow [("bio", none)] 250 =
      .error "At least one field must be provided for update" ∧
    ∃ kv ∈ ([("bio", some (JsonVal.str "hey"))] : RawBody), kv.2 ≠ none := by
  constructor
  · exact (claim9_all_null_payload_rejected aliceRow [("bio", none)] 250).1 (by simp)
  · exact (claim9_all_null_payload_rejected aliceRow [("bio", some (.str "hey"))] 250).2
      _ rfl

/-- Claim C10: for every body that passes validation, the `setattr` loop of
the self-update handler assigns only fields of the `ProfileUpdate` whitelist
{first_name, last_name, bio, location, extra_fields}: every other column of
the row — role, email, nickname, hashed_password, email_verified,
is_professional, the audit fields and the rest — is untouched by the
handler. -/
theorem claim10_handler_assigns_only_whitelist :
    ∀ (u : UserRecord) (raw : RawBody) (p : ProfileUpdate),
    parseProfileUpdate raw = .ok p →
    (applyProfileUpdate u p).id = u.id ∧
    (applyProfileUpdate u p).nickname = u.nickname ∧
    (applyProfileUpdate u p).email = u.email ∧
    (applyProfileUpdate u p).profile_picture_url = u.profile_picture_url ∧
    (applyProfileUpdate u p).linkedin_profile_url = u.linkedin_profile_url ∧
    (applyProfileUpdate u p).github_profile_url = u.github_profile_url ∧
    (applyProfileUpdate u p).role = u.role ∧
    (applyProfileUpdate u p).email_verified = u.email_verified ∧
    (applyProfileUpdate u p).hashed_password = u.hashed_password ∧
    (applyProfileUpdate u p).verification_token = u.verification_token ∧
    (applyProfileUpdate u p).is_professional = u.is_professional ∧
    (applyProfileUpdate u p).professional_status_updated_at =
      u.professional_status_updated_at ∧
    (applyProfileUpdate u p).professional_upgraded_by_id =
      u.professional_upgraded_by_id ∧
    (applyProfileUpdate u p).last_login_at = u.last_login_at ∧
    (applyProfileUpdate u p).failed_login_attempts = u.failed_login_attempts ∧
    (applyProfileUpdate u p).is_locked = u.is_locked ∧
    (applyProfileUpdate u p).created_at = u.created_at ∧
    (applyProfileUpdate u p).updated_at = u.updated_at :=
  fun u _ p _ => applyProfileUpdate_frame u p

/-- Witness for C10 at a parsed `{"bio": "x"}` body. -/
theorem claim10_witness :
    (applyProfileUpdate aliceRow ⟨none, none, some (some "x"), none, none⟩).id = aliceRow.id ∧
    (applyProfileUpdate aliceRow ⟨none, none, some (some "x"), none, none⟩).nickname =
      aliceRow.nickname ∧
    (applyProfileUpdate aliceRow ⟨none, none, some (some "x"), none, none⟩).email =
      aliceRow.email ∧
    (applyProfileUpdate aliceRow ⟨none, none, some (some "x"), none, none⟩).profile_picture_url =
      aliceRow.profile_picture_url ∧
    (applyProfileUpdate aliceRow ⟨none, none, some (some "x"), none, none⟩).linkedin_profile_url =
      aliceRow.linkedin_profile_url ∧
    (applyProfileUpdate aliceRow ⟨none, none, some (some "x"), none, none⟩).github_profile_url =
      aliceRow.github_profile_url ∧
    (applyProfileUpdate aliceRow ⟨none, none, some (some "x"), none, none⟩).role =
      aliceRow.role ∧
    (applyProfileUpdate aliceRow ⟨none, none, some (some "x"), none, none⟩).email_verified =
      aliceRow.email_verified ∧
    (applyProfileUpdate aliceRow ⟨none, none, some (some "x"), none, none⟩).hashed_password =
      aliceRow.hashed_password ∧
    (applyProfileUpdate aliceRow ⟨none, none, some (some "x"), none, none⟩).verification_token =
      aliceRow.verification_token ∧
    (applyProfileUpdate aliceRow ⟨none, none, some (some "x"), none, none⟩).is_professional =
      aliceRow.is_professional ∧
    (applyProfileUpdate aliceRow
        ⟨none, none, some (some "x"), none, none⟩).professional_status_updated_at =
      aliceRow.professional_status_updated_at ∧
    (applyProfileUpdate aliceRow
        ⟨none, none, some (some "x"), none, none⟩).professional_upgraded_by_id =
      aliceRow.professional_upgraded_by_id ∧
    (applyProfileUpdate aliceRow ⟨none, none, some (some "x"), none, none⟩).last_login_at =
      aliceRow.last_login_at ∧
    (applyProfileUpdate aliceRow
        ⟨none, none, some (some "x"), none, none⟩).failed_login_attempts =
      aliceRow.failed_login_attempts ∧
    (applyProfileUpdate aliceRow ⟨none, none, some (some "x"), none, none⟩).is_locked =
      aliceRow.is_locked ∧
    (applyProfileUpdate aliceRow ⟨none, none, some (some "x"), none, none⟩).created_at =
      aliceRow.created_at ∧
    (applyProfileUpdate aliceRow ⟨none, none, some (some "x"), none, none⟩).updated_at =
      aliceRow.updated_at :=
  claim10_handler_assigns_only_whitelist aliceRow [("bio", some (.str "x"))]
    ⟨none, none, some (some "x"), none, none⟩ rfl

end UserMgmt
